import Mathlib

/-!
Shallow embedding of src/Sports_team_Streamlit/sports_chatbot.py.

The Streamlit session state is modelled as an explicit `SessionState` record
that is threaded through the functions.  External effects that the claims
talk about are recorded in two instrumentation fields: `errors` collects the
banners shown with st.error, and `agent_calls` counts the boto3
invoke_agent requests that were issued.  The outcome of the external Bedrock
call (success with a response, or a ClientError) is passed in as an
`Option AgentResponse` argument; wall-clock readings (time.time(),
datetime.now().strftime(...)) are likewise passed in as arguments.
Monetary amounts and durations are modelled as exact rationals.
-/

namespace SportsChatbot

/-- Role of a chat turn (the "role" field of a stored message). -/
inductive Role where
  | user
  | assistant
deriving DecidableEq, Repr

/-- Trace payload: mapping from phase name to the collected phase records,
kept opaque (the program only passes it through and displays it). -/
abbrev Trace := List (String × List String)

/-- ref["location"]["s3Location"] of a retrieved reference. -/
structure S3Location where
  uri : String
deriving DecidableEq, Repr

/-- ref["location"] of a retrieved reference. -/
structure RefLocation where
  s3Location : S3Location
deriving DecidableEq, Repr

/-- One element of citation["retrievedReferences"]. -/
structure RetrievedReference where
  location : RefLocation
deriving DecidableEq, Repr

/-- One element of the "citations" list of the agent response. -/
structure Citation where
  retrievedReferences : List RetrievedReference
deriving DecidableEq, Repr

/-- The dict returned by invoke_agent on success. -/
structure AgentResponse where
  output_text : String
  citations : List Citation
  trace : Trace
  execution_time : ℚ
deriving DecidableEq, Repr

/-- One stored message: "role", "content" and the "metrics" sub-dict
("tokens", "cost", "timestamp"; assistant messages additionally carry
"execution_time" and "trace"). -/
structure Turn where
  role : Role
  content : String
  tokens : Nat
  cost : ℚ
  timestamp : String
  execution_time : Option ℚ
  trace : Option Trace
deriving DecidableEq, Repr

/-- st.session_state, with the two instrumentation fields described above. -/
structure SessionState where
  initialized : Bool
  session_id : String
  messages : List Turn
  citations : List Citation
  trace : Trace
  total_cost : ℚ
  total_input_tokens : Nat
  total_output_tokens : Nat
  session_start_time : ℚ
  total_prompt_time : ℚ
  errors : List String
  agent_calls : Nat
deriving DecidableEq, Repr

/-- The session state before the very first init_state call: no keys set
(in particular the 'initialized' key is absent), no errors shown, no agent
calls made. -/
def blankState : SessionState where
  initialized := false
  session_id := ""
  messages := []
  citations := []
  trace := []
  total_cost := 0
  total_input_tokens := 0
  total_output_tokens := 0
  session_start_time := 0
  total_prompt_time := 0
  errors := []
  agent_calls := 0

/-- st.session_state.clear(): every session key is removed (so the
'initialized' key is absent again); the instrumentation fields record
external effects, which clearing the session dict does not undo. -/
def clear_state (s : SessionState) : SessionState where
  initialized := false
  session_id := ""
  messages := []
  citations := []
  trace := []
  total_cost := 0
  total_input_tokens := 0
  total_output_tokens := 0
  session_start_time := 0
  total_prompt_time := 0
  errors := s.errors
  agent_calls := s.agent_calls

/-- Constants (module top of sports_chatbot.py). -/
def COST_PER_INPUT_TOKEN : ℚ := 0.00025

/-- Constants (module top of sports_chatbot.py). -/
def COST_PER_OUTPUT_TOKEN : ℚ := 0.00025

/-- Helper for count_tokens: number of maximal whitespace-free runs in the
character list, which is what len(text.split()) computes in Python.  The
Bool argument records whether the previous character was part of a word. -/
def count_tokens_aux : List Char → Bool → Nat
  | [], _ => 0
  | c :: cs, inWord =>
    if c.isWhitespace then count_tokens_aux cs false
    else (if inWord then 0 else 1) + count_tokens_aux cs true

/-- count_tokens(text): len(text.split()) — the number of
whitespace-separated tokens. -/
def count_tokens (text : String) : Nat :=
  count_tokens_aux text.data false

/-- The body of init_state when the 'initialized' key is absent: fresh
session id (the uuid4 value is the `fresh` argument), empty transcript,
zeroed counters, start time recorded (time.time() is the `now` argument). -/
def fresh_session (fresh : String) (now : ℚ) (s : SessionState) : SessionState :=
  { s with
    initialized := true
    session_id := fresh
    messages := []
    citations := []
    trace := []
    total_cost := 0
    total_input_tokens := 0
    total_output_tokens := 0
    session_start_time := now
    total_prompt_time := 0 }

/-- init_state(): initialize the session keys if 'initialized' is not yet
in st.session_state, otherwise do nothing. -/
def init_state (fresh : String) (now : ℚ) (s : SessionState) : SessionState :=
  if s.initialized then s else fresh_session fresh now s

/-- The Reset Session button in render_session_analytics:
st.session_state.clear() followed by init_state(). -/
def reset_session (fresh : String) (now : ℚ) (s : SessionState) : SessionState :=
  init_state fresh now (clear_state s)

/-- invoke_agent(prompt): issues the Bedrock request (counted in
agent_calls).  On success the streamed response is returned and the call
duration is added to total_prompt_time; on ClientError an error banner is
shown (st.error) and None is returned, leaving the metric counters alone. -/
def invoke_agent (outcome : Option AgentResponse) (s : SessionState) :
    Option AgentResponse × SessionState :=
  match outcome with
  | some r =>
      (some r,
        { s with
          agent_calls := s.agent_calls + 1
          total_prompt_time := s.total_prompt_time + r.execution_time })
  | none =>
      (none,
        { s with
          agent_calls := s.agent_calls + 1
          errors := s.errors ++ ["Error invoking agent"] })

/-- One line of the sources block: "\n{idx}. {uri}" with a 1-based idx. -/
def refLine (idx : Nat) (r : RetrievedReference) : String :=
  "\n" ++ toString idx ++ ". " ++ r.location.s3Location.uri

/-- The citation_text accumulation of process_agent_response: start from
the header, then for idx, citation in enumerate(citations, 1), for each
retrieved reference append one line. -/
def citation_text (citations : List Citation) : String :=
  citations.enum.foldl
    (fun acc p =>
      p.2.retrievedReferences.foldl (fun a r => a ++ refLine (p.1 + 1) r) acc)
    "\n\n**Sources:**"

/-- The user half of the message pair stored by store_messages. -/
def user_turn (prompt : String) (tokens : Nat) (cost : ℚ) (t : String) : Turn where
  role := Role.user
  content := prompt
  tokens := tokens
  cost := cost
  timestamp := t
  execution_time := none
  trace := none

/-- The assistant half of the message pair stored by store_messages. -/
def assistant_turn (content : String) (tokens : Nat) (cost : ℚ) (t : String)
    (r : AgentResponse) : Turn where
  role := Role.assistant
  content := content
  tokens := tokens
  cost := cost
  timestamp := t
  execution_time := some r.execution_time
  trace := some r.trace

/-- store_messages(...): extend st.session_state.messages with the
user/assistant pair and remember the last citations and trace.  The two
datetime.now().strftime("%H:%M:%S") readings are the t1/t2 arguments. -/
def store_messages (prompt output_text : String) (input_tokens output_tokens : Nat)
    (input_cost output_cost : ℚ) (r : AgentResponse) (t1 t2 : String)
    (s : SessionState) : SessionState :=
  { s with
    messages := s.messages ++
      [user_turn prompt input_tokens input_cost t1,
       assistant_turn output_text output_tokens output_cost t2 r]
    citations := r.citations
    trace := r.trace }

/-- process_agent_response(response, prompt, input_tokens, input_cost, ...):
charge the output tokens/cost computed on the streamed text, then append
the sources block when the citations list is non-empty, then store both
messages. -/
def process_agent_response (r : AgentResponse) (prompt : String)
    (input_tokens : Nat) (input_cost : ℚ) (t1 t2 : String)
    (s : SessionState) : SessionState :=
  let output_text := r.output_text
  let output_tokens := count_tokens output_text
  let output_cost := (output_tokens : ℚ) * COST_PER_OUTPUT_TOKEN
  let s1 := { s with
    total_output_tokens := s.total_output_tokens + output_tokens
    total_cost := s.total_cost + output_cost }
  let output_text1 :=
    if r.citations.isEmpty then output_text
    else output_text ++ citation_text r.citations
  store_messages prompt output_text1 input_tokens output_tokens input_cost
    output_cost r t1 t2 s1

/-- process_user_input(prompt, container): charge the input tokens/cost,
invoke the agent, and process the response when one came back (when
invoke_agent returned None the function simply ends). -/
def process_user_input (outcome : Option AgentResponse) (t1 t2 : String)
    (prompt : String) (s : SessionState) : SessionState :=
  let input_tokens := count_tokens prompt
  let input_cost := (input_tokens : ℚ) * COST_PER_INPUT_TOKEN
  let s1 := { s with
    total_input_tokens := s.total_input_tokens + input_tokens
    total_cost := s.total_cost + input_cost }
  match invoke_agent outcome s1 with
  | (some r, s2) => process_agent_response r prompt input_tokens input_cost t1 t2 s2
  | (none, s2) => s2

/-- The chat submission control of render_chat_interface:
`if prompt := container.chat_input(...)`. An empty string is falsy in
Python, so an empty utterance never triggers process_user_input. -/
def handle_chat_input (outcome : Option AgentResponse) (t1 t2 : String)
    (prompt : String) (s : SessionState) : SessionState :=
  if prompt = "" then s else process_user_input outcome t1 t2 prompt s

/-- The metric values read by render_session_analytics (a pure read). -/
structure MetricsSnapshot where
  session_duration : ℚ
  total_input_tokens : Nat
  total_output_tokens : Nat
  total_tokens : Nat
  total_cost : ℚ
  total_prompt_time : ℚ
deriving DecidableEq, Repr

/-- snapshot_metrics: the values render_session_analytics displays
(time.time() is the `now` argument). -/
def snapshot_metrics (now : ℚ) (s : SessionState) : MetricsSnapshot where
  session_duration := now - s.session_start_time
  total_input_tokens := s.total_input_tokens
  total_output_tokens := s.total_output_tokens
  total_tokens := s.total_input_tokens + s.total_output_tokens
  total_cost := s.total_cost
  total_prompt_time := s.total_prompt_time

/-- States reachable by the application: main() runs init_state on every
rerun, the Reset Session button runs reset_session, and the chat input
control runs handle_chat_input with some external-call outcome. -/
inductive Reachable : SessionState → Prop
  | start (fresh : String) (now : ℚ) :
      Reachable (init_state fresh now blankState)
  | rerun (fresh : String) (now : ℚ) (s : SessionState) :
      Reachable s → Reachable (init_state fresh now s)
  | reset (fresh : String) (now : ℚ) (s : SessionState) :
      Reachable s → Reachable (reset_session fresh now s)
  | chat (outcome : Option AgentResponse) (t1 t2 prompt : String)
      (s : SessionState) :
      Reachable s → Reachable (handle_chat_input outcome t1 t2 prompt s)

/-- Reachable states whose history contains no failed external call:
every chat submission either carried a successful outcome or was empty
(and hence never reached the agent). -/
inductive ReachableOk : SessionState → Prop
  | start (fresh : String) (now : ℚ) :
      ReachableOk (init_state fresh now blankState)
  | rerun (fresh : String) (now : ℚ) (s : SessionState) :
      ReachableOk s → ReachableOk (init_state fresh now s)
  | reset (fresh : String) (now : ℚ) (s : SessionState) :
      ReachableOk s → ReachableOk (reset_session fresh now s)
  | chatOk (r : AgentResponse) (t1 t2 prompt : String) (s : SessionState) :
      ReachableOk s → ReachableOk (handle_chat_input (some r) t1 t2 prompt s)
  | chatEmpty (outcome : Option AgentResponse) (t1 t2 : String)
      (s : SessionState) :
      ReachableOk s → ReachableOk (handle_chat_input outcome t1 t2 "" s)

/-- Spec-side description of the sources section (section 4.2 step 4): one
line per (1-based citation index, reference URI) pair, in collaborator
order, the citation index reused across the references of one citation.
The first argument is the index given to the head citation. -/
def sources_lines : Nat → List Citation → List String
  | _, [] => []
  | n, c :: cs =>
      c.retrievedReferences.map
        (fun r => toString n ++ ". " ++ r.location.s3Location.uri)
      ++ sources_lines (n + 1) cs

/-- Sum of the per-turn token counts of the user turns of a transcript. -/
def user_token_sum (l : List Turn) : Nat :=
  (l.map (fun t => if t.role = Role.user then t.tokens else 0)).sum

/-- Sum of the per-turn token counts of the assistant turns. -/
def assistant_token_sum (l : List Turn) : Nat :=
  (l.map (fun t => if t.role = Role.assistant then t.tokens else 0)).sum

/-- Sum of the per-turn costs of all turns of a transcript. -/
def cost_sum (l : List Turn) : ℚ :=
  (l.map (fun t => t.cost)).sum

/-- The invariant of spec section 3: the cumulative counters equal the
sums of the corresponding per-turn metric values in the transcript. -/
def counters_match (s : SessionState) : Prop :=
  s.total_input_tokens = user_token_sum s.messages ∧
  s.total_output_tokens = assistant_token_sum s.messages ∧
  s.total_cost = cost_sum s.messages

/-- The transcript is a sequence of user/assistant pairs in append order. -/
inductive Paired : List Turn → Prop
  | nil : Paired []
  | pair (u a : Turn) (l : List Turn) (hu : u.role = Role.user)
      (ha : a.role = Role.assistant) (hl : Paired l) : Paired (u :: a :: l)

/-- The two-citation example of spec section 8: the first citation holds
one reference (s3://a), the second holds two (s3://b, s3://c). -/
def cA : Citation := ⟨[⟨⟨⟨"s3://a"⟩⟩⟩]⟩

/-- Second citation of the spec section 8 example. -/
def cBC : Citation := ⟨[⟨⟨⟨"s3://b"⟩⟩⟩, ⟨⟨⟨"s3://c"⟩⟩⟩]⟩

/-- Collaborator response of the spec section 8 example scenario:
"hi there friend", no citations, 1.2 seconds. -/
def c7Resp : AgentResponse where
  output_text := "hi there friend"
  citations := []
  trace := []
  execution_time := 12 / 10

/-- Session state of the spec section 8 example scenario: a fresh session
that processed the utterance "hello world" answered by c7Resp. -/
def c7State : SessionState :=
  process_user_input (some c7Resp) "10:00:00" "10:00:01" "hello world"
    (init_state "sid" 0 blankState)

/-- A successful collaborator response used to exhibit a state with a
non-empty transcript. -/
def c5Resp : AgentResponse where
  output_text := "a poem"
  citations := []
  trace := []
  execution_time := 1

/-- A concrete reachable state whose transcript holds one exchange. -/
def c5State : SessionState :=
  handle_chat_input (some c5Resp) "10:00:00" "10:00:01" "hi"
    (init_state "sid" 0 blankState)

lemma foldl_str_append {α : Type} (f : α → String) (l : List α) :
    ∀ (init : String),
      l.foldl (fun a x => a ++ f x) init = init ++ String.join (l.map f) := by
  induction l with
  | nil => intro init; apply String.ext; simp
  | cons x xs ih =>
      intro init
      simp only [List.foldl_cons, List.map_cons]
      rw [ih]
      apply String.ext
      simp [List.append_assoc]

lemma citation_text_gen (cits : List Citation) :
    ∀ (n : Nat) (init : String),
      (List.enumFrom n cits).foldl
        (fun acc p =>
          p.2.retrievedReferences.foldl (fun a r => a ++ refLine (p.1 + 1) r) acc)
        init
      = init ++ String.join ((sources_lines (n + 1) cits).map (fun l => "\n" ++ l)) := by
  induction cits with
  | nil => intro n init; apply String.ext; simp [sources_lines]
  | cons c cs ih =>
      intro n init
      simp only [List.enumFrom, List.foldl_cons]
      rw [foldl_str_append, ih]
      apply String.ext
      simp only [sources_lines, List.map_append, String.data_append, String.data_join,
        List.map_map, List.flatten_append, List.append_assoc]
      congr 2

lemma citation_text_eq (cits : List Citation) :
    citation_text cits
      = "\n\n**Sources:**"
        ++ String.join ((sources_lines 1 cits).map (fun l => "\n" ++ l)) := by
  unfold citation_text
  rw [List.enum_eq_enumFrom, citation_text_gen]

lemma sources_lines_all_empty (cits : List Citation)
    (hall : ∀ c ∈ cits, c.retrievedReferences = []) :
    ∀ (n : Nat), sources_lines n cits = [] := by
  induction cits with
  | nil => intro n; rfl
  | cons c cs ih =>
      intro n
      have hc : c.retrievedReferences = [] := hall c (List.mem_cons_self c cs)
      have hcs : ∀ d ∈ cs, d.retrievedReferences = [] :=
        fun d hd => hall d (List.mem_cons_of_mem c hd)
      simp [sources_lines, hc, ih hcs]

lemma Paired.append_pair {l : List Turn} (h : Paired l) (u a : Turn)
    (hu : u.role = Role.user) (ha : a.role = Role.assistant) :
    Paired (l ++ [u, a]) := by
  induction h with
  | nil => exact Paired.pair u a [] hu ha Paired.nil
  | pair u1 a1 l1 hu1 ha1 hl1 ih => exact Paired.pair u1 a1 _ hu1 ha1 ih

lemma Paired.length_even {l : List Turn} (h : Paired l) : Even l.length := by
  induction h with
  | nil => exact ⟨0, rfl⟩
  | pair u a l1 hu ha hl ih =>
      obtain ⟨m, hm⟩ := ih
      exact ⟨m + 1, by simp [hm]; omega⟩

lemma Paired.get_roles {l : List Turn} (h : Paired l) :
    ∀ (k : Nat) (hk : 2 * k + 1 < l.length),
      (l.get ⟨2 * k, Nat.lt_of_succ_lt hk⟩).role = Role.user ∧
      (l.get ⟨2 * k + 1, hk⟩).role = Role.assistant := by
  induction h with
  | nil => intro k hk; simp at hk
  | pair u a l1 hu ha hl ih =>
      intro k hk
      cases k with
      | zero => exact ⟨hu, ha⟩
      | succ k =>
          have e2 : 2 * (k + 1) = 2 * k + 1 + 1 := by ring
          have e3 : 2 * (k + 1) + 1 = 2 * k + 1 + 1 + 1 := by ring
          have hk1 : 2 * k + 1 < l1.length := by
            simp only [List.length_cons] at hk; omega
          obtain ⟨h1, h2⟩ := ih k hk1
          constructor
          · simp only [e2, List.get_cons_succ]
            exact h1
          · simp only [e3, List.get_cons_succ]
            exact h2

/-- Effect of a successful exchange on the transcript: the user/assistant
pair is appended, the assistant content carries the optional sources
section, and the assistant metrics are computed on the original streamed
text. -/
lemma messages_success (s : SessionState) (t1 t2 prompt : String) (r : AgentResponse) :
    (process_user_input (some r) t1 t2 prompt s).messages =
      s.messages ++
        [user_turn prompt (count_tokens prompt)
           ((count_tokens prompt : ℚ) * COST_PER_INPUT_TOKEN) t1,
         assistant_turn
           (if r.citations.isEmpty then r.output_text
            else r.output_text ++ citation_text r.citations)
           (count_tokens r.output_text)
           ((count_tokens r.output_text : ℚ) * COST_PER_OUTPUT_TOKEN) t2 r] := rfl

lemma reachable_paired {s : SessionState} (h : Reachable s) : Paired s.messages := by
  induction h with
  | start fresh now => exact Paired.nil
  | rerun fresh now s hs ih =>
      by_cases hi : s.initialized
      · simpa [init_state, hi] using ih
      · simp [init_state, hi, fresh_session]
        exact Paired.nil
  | reset fresh now s hs ih => exact Paired.nil
  | chat outcome t1 t2 prompt s hs ih =>
      by_cases hp : prompt = ""
      · simpa [handle_chat_input, hp] using ih
      · simp only [handle_chat_input, if_neg hp]
        cases outcome with
        | none => exact ih
        | some r =>
            rw [messages_success]
            exact ih.append_pair _ _ rfl rfl

lemma counters_match_success (s : SessionState) (t1 t2 prompt : String)
    (r : AgentResponse) (h : counters_match s) :
    counters_match (process_user_input (some r) t1 t2 prompt s) := by
  obtain ⟨h1, h2, h3⟩ := h
  refine ⟨?_, ?_, ?_⟩
  · show s.total_input_tokens + count_tokens prompt = _
    rw [messages_success]
    simp [user_token_sum, user_turn, assistant_turn, h1]
  · show s.total_output_tokens + count_tokens r.output_text = _
    rw [messages_success]
    simp [assistant_token_sum, user_turn, assistant_turn, h2]
  · show s.total_cost + (count_tokens prompt : ℚ) * COST_PER_INPUT_TOKEN
        + (count_tokens r.output_text : ℚ) * COST_PER_OUTPUT_TOKEN = _
    rw [messages_success]
    simp [cost_sum, user_turn, assistant_turn, h3]
    ring

lemma c5State_len : 2 * 0 + 1 < c5State.messages.length := by decide

lemma c5State_reachable : Reachable c5State :=
  Reachable.chat (some c5Resp) "10:00:00" "10:00:01" "hi"
    (init_state "sid" 0 blankState) (Reachable.start "sid" 0)

/-- C1 (counterexample): the claim says a failed external call leaves every
cumulative counter unchanged; submitting "hello world" against a failing
call from a fresh session leaves the input-token counter at 2, not at its
prior value 0. -/
theorem failed_call_not_atomic_cex :
    (process_user_input none "10:00:00" "10:00:01" "hello world"
        (init_state "sid" 0 blankState)).total_input_tokens
      ≠ (init_state "sid" 0 blankState).total_input_tokens := by
  decide

/-- C1 (amended): when the external call fails, no Turn is recorded,
exactly one user-visible error is surfaced, and the output-token counter
and cumulative processing time are unchanged — but the input-token counter
and the cumulative cost have already been increased by the utterance's
token count and its cost before the call. -/
theorem failed_call_effects (s : SessionState) (t1 t2 prompt : String) :
    (process_user_input none t1 t2 prompt s).messages = s.messages ∧
    (process_user_input none t1 t2 prompt s).errors
      = s.errors ++ ["Error invoking agent"] ∧
    (process_user_input none t1 t2 prompt s).total_output_tokens
      = s.total_output_tokens ∧
    (process_user_input none t1 t2 prompt s).total_prompt_time
      = s.total_prompt_time ∧
    (process_user_input none t1 t2 prompt s).total_input_tokens
      = s.total_input_tokens + count_tokens prompt ∧
    (process_user_input none t1 t2 prompt s).total_cost
      = s.total_cost + (count_tokens prompt : ℚ) * COST_PER_INPUT_TOKEN :=
  ⟨rfl, rfl, rfl, rfl, rfl, rfl⟩

/-- C2 (counterexample): after a failed external call the cumulative
input-token counter no longer equals the sum of the per-turn values in the
transcript, so the invariant does not hold at all times. -/
theorem counters_mismatch_after_failure_cex :
    ¬ counters_match
        (process_user_input none "10:00:00" "10:00:01" "hello world"
          (init_state "sid" 0 blankState)) :=
  fun h => absurd h.1 (by decide)

/-- C2 (amended): after every operation whose history holds no failed
external call — init, reset, empty submissions and successful turns — the
cumulative input-token, output-token and cost counters equal the sums of
the corresponding per-turn metric values in the transcript. -/
theorem counters_match_of_reachableOk {s : SessionState} (h : ReachableOk s) :
    counters_match s := by
  induction h with
  | start fresh now => exact ⟨rfl, rfl, rfl⟩
  | rerun fresh now s hs ih =>
      by_cases hi : s.initialized
      · simpa [init_state, hi] using ih
      · simp [init_state, hi, fresh_session]
        exact ⟨rfl, rfl, rfl⟩
  | reset fresh now s hs ih => exact ⟨rfl, rfl, rfl⟩
  | chatOk r t1 t2 prompt s hs ih =>
      by_cases hp : prompt = ""
      · simpa [handle_chat_input, hp] using ih
      · simp only [handle_chat_input, if_neg hp]
        exact counters_match_success s t1 t2 prompt r ih
  | chatEmpty outcome t1 t2 s hs ih => exact ih

/-- C2 (witness): the invariant holds at a concrete reachable state. -/
theorem counters_match_of_reachableOk_witness :
    counters_match (init_state "sid0" 0 blankState) :=
  counters_match_of_reachableOk (ReachableOk.start "sid0" 0)

/-- C3: the sources section is exactly the header followed by one line per
(1-based citation index, reference URI) pair in collaborator order, the
index reused across the references of one citation; in particular for the
citations [cA, cBC] the lines are "1. s3://a", "2. s3://b", "2. s3://c",
and the processor appends exactly that section to the response text. -/
theorem sources_section_deterministic :
    (∀ (cits : List Citation),
      citation_text cits
        = "\n\n**Sources:**"
          ++ String.join ((sources_lines 1 cits).map (fun l => "\n" ++ l))) ∧
    sources_lines 1 [cA, cBC] = ["1. s3://a", "2. s3://b", "2. s3://c"] ∧
    citation_text [cA, cBC]
      = "\n\n**Sources:**\n1. s3://a\n2. s3://b\n2. s3://c" ∧
    (∀ (s : SessionState) (t1 t2 prompt text : String) (tr : Trace) (et : ℚ),
      (process_user_input (some ⟨text, [cA, cBC], tr, et⟩) t1 t2 prompt s).messages =
        s.messages ++
          [user_turn prompt (count_tokens prompt)
             ((count_tokens prompt : ℚ) * COST_PER_INPUT_TOKEN) t1,
           assistant_turn
             (text ++ "\n\n**Sources:**\n1. s3://a\n2. s3://b\n2. s3://c")
             (count_tokens text)
             ((count_tokens text : ℚ) * COST_PER_OUTPUT_TOKEN) t2
             ⟨text, [cA, cBC], tr, et⟩]) :=
  ⟨citation_text_eq, rfl, rfl, fun _ _ _ _ _ _ _ => rfl⟩

/-- C4: a successful exchange appends exactly the user turn and the
assistant turn; the assistant content is the response text plus the
optional sources section, while its token count and cost are computed on
the original response text alone. -/
theorem assistant_turn_content_and_charges (s : SessionState)
    (t1 t2 prompt : String) (r : AgentResponse) :
    (process_user_input (some r) t1 t2 prompt s).messages =
      s.messages ++
        [user_turn prompt (count_tokens prompt)
           ((count_tokens prompt : ℚ) * COST_PER_INPUT_TOKEN) t1,
         assistant_turn
           (if r.citations.isEmpty then r.output_text
            else r.output_text ++ citation_text r.citations)
           (count_tokens r.output_text)
           ((count_tokens r.output_text : ℚ) * COST_PER_OUTPUT_TOKEN) t2 r] :=
  rfl

/-- C5: in every reachable session state the transcript has even length,
the turn at position 2k has role user and the turn at position 2k+1 has
role assistant. -/
theorem transcript_alternates_roles (s : SessionState) (h : Reachable s)
    (k : Nat) (hk : 2 * k + 1 < s.messages.length) :
    Even s.messages.length ∧
    (s.messages.get ⟨2 * k, Nat.lt_of_succ_lt hk⟩).role = Role.user ∧
    (s.messages.get ⟨2 * k + 1, hk⟩).role = Role.assistant :=
  ⟨(reachable_paired h).length_even,
   ((reachable_paired h).get_roles k hk).1,
   ((reachable_paired h).get_roles k hk).2⟩

/-- C5 (witness): the role pattern at a concrete reachable state with one
stored exchange. -/
theorem transcript_alternates_roles_witness :
    Even c5State.messages.length ∧
    (c5State.messages.get ⟨2 * 0, Nat.lt_of_succ_lt c5State_len⟩).role
      = Role.user ∧
    (c5State.messages.get ⟨2 * 0 + 1, c5State_len⟩).role = Role.assistant :=
  transcript_alternates_roles c5State c5State_reachable 0 c5State_len

/-- C6: reset followed by snapshot_metrics yields all-zero cumulative
counters (input tokens, output tokens, cost, processing time) and an empty
transcript, regardless of the prior session state. -/
theorem reset_then_snapshot_zero (s : SessionState) (fresh : String)
    (now now2 : ℚ) :
    snapshot_metrics now2 (reset_session fresh now s)
      = ⟨now2 - now, 0, 0, 0, 0, 0⟩ ∧
    (reset_session fresh now s).messages = [] :=
  ⟨rfl, rfl⟩

/-- C7: the token estimate is the whitespace-separated word count and the
cost is count times the fixed rate, identical for input and output; on the
spec's example scenario the input cost is 0.0005, the output cost 0.00075,
and after the turn the cumulative tokens are 5, the cumulative cost
0.00125 and the cumulative processing time at least 1.2 seconds. -/
theorem token_cost_example :
    count_tokens "hello world" = 2 ∧
    (count_tokens "hello world" : ℚ) * COST_PER_INPUT_TOKEN = 0.0005 ∧
    count_tokens "hi there friend" = 3 ∧
    (count_tokens "hi there friend" : ℚ) * COST_PER_OUTPUT_TOKEN = 0.00075 ∧
    COST_PER_INPUT_TOKEN = COST_PER_OUTPUT_TOKEN ∧
    (∀ (s : SessionState) (t1 t2 prompt : String) (r : AgentResponse),
      (process_user_input (some r) t1 t2 prompt s).total_cost
        = s.total_cost + (count_tokens prompt : ℚ) * COST_PER_INPUT_TOKEN
          + (count_tokens r.output_text : ℚ) * COST_PER_OUTPUT_TOKEN) ∧
    c7State.total_input_tokens = 2 ∧
    c7State.total_output_tokens = 3 ∧
    c7State.total_cost = 0.00125 ∧
    c7State.total_prompt_time ≥ 12 / 10 := by
  have h1 : count_tokens "hello world" = 2 := by decide
  have h2 : count_tokens "hi there friend" = 3 := by decide
  refine ⟨h1, ?_, h2, ?_, rfl, fun _ _ _ _ _ => rfl, by decide, by decide,
    ?_, ?_⟩
  · rw [h1]; norm_num [COST_PER_INPUT_TOKEN]
  · rw [h2]; norm_num [COST_PER_OUTPUT_TOKEN]
  · simp [c7State, process_user_input, invoke_agent, process_agent_response,
      store_messages, init_state, blankState, fresh_session, c7Resp, h1, h2]
    norm_num [COST_PER_INPUT_TOKEN, COST_PER_OUTPUT_TOKEN]
  · show (0 : ℚ) + 12 / 10 ≥ 12 / 10
    norm_num

/-- C8: init_state is idempotent — running it twice equals running it
once, on an already-initialized state it is a no-op, and from an
uninitialized state it creates a fresh identifier, an empty transcript,
zeroed counters and records the start time. -/
theorem init_state_idempotent (s : SessionState) (fresh fresh2 : String)
    (now now2 : ℚ) :
    init_state fresh2 now2 (init_state fresh now s) = init_state fresh now s ∧
    (s.initialized = true → init_state fresh now s = s) ∧
    (s.initialized = false →
      (init_state fresh now s).initialized = true ∧
      (init_state fresh now s).session_id = fresh ∧
      (init_state fresh now s).messages = [] ∧
      (init_state fresh now s).total_input_tokens = 0 ∧
      (init_state fresh now s).total_output_tokens = 0 ∧
      (init_state fresh now s).total_cost = 0 ∧
      (init_state fresh now s).total_prompt_time = 0 ∧
      (init_state fresh now s).session_start_time = now) := by
  refine ⟨?_, ?_, ?_⟩
  · by_cases hi : s.initialized
    · simp [init_state, hi]
    · simp [init_state, hi, fresh_session]
  · intro hi
    simp [init_state, hi]
  · intro hi
    simp [init_state, hi, fresh_session]

/-- C8 (witness): idempotence and fresh-session creation at a concrete
uninitialized state. -/
theorem init_state_idempotent_witness :
    init_state "b" 1 (init_state "a" 0 blankState) = init_state "a" 0 blankState ∧
    (init_state "a" 0 blankState).session_id = "a" ∧
    (init_state "a" 0 blankState).messages = [] ∧
    (init_state "a" 0 blankState).total_cost = 0 := by
  obtain ⟨hidem, -, hfresh⟩ := init_state_idempotent blankState "a" "b" 0 1
  obtain ⟨-, hid, hmsg, -, -, hcost, -, -⟩ := hfresh rfl
  exact ⟨hidem, hid, hmsg, hcost⟩

/-- C9: an empty utterance never triggers the turn processor — the chat
submission control leaves the state untouched: no agent call is issued, no
turns are recorded and no counter changes. -/
theorem empty_input_noop (outcome : Option AgentResponse) (t1 t2 : String)
    (s : SessionState) :
    handle_chat_input outcome t1 t2 "" s = s ∧
    (handle_chat_input outcome t1 t2 "" s).agent_calls = s.agent_calls ∧
    (handle_chat_input outcome t1 t2 "" s).messages = s.messages ∧
    (handle_chat_input outcome t1 t2 "" s).total_cost = s.total_cost :=
  ⟨rfl, rfl, rfl, rfl⟩

/-- C10: when the citation list is non-empty but every citation carries an
empty reference list, the sources header is still appended with no lines
after it; when the citation list itself is empty, no header is appended. -/
theorem sources_header_with_empty_references (r rEmpty : AgentResponse)
    (s : SessionState) (t1 t2 prompt : String)
    (hne : r.citations ≠ [])
    (hall : ∀ c ∈ r.citations, c.retrievedReferences = [])
    (hemp : rEmpty.citations = []) :
    citation_text r.citations = "\n\n**Sources:**" ∧
    (process_user_input (some r) t1 t2 prompt s).messages =
      s.messages ++
        [user_turn prompt (count_tokens prompt)
           ((count_tokens prompt : ℚ) * COST_PER_INPUT_TOKEN) t1,
         assistant_turn (r.output_text ++ "\n\n**Sources:**")
           (count_tokens r.output_text)
           ((count_tokens r.output_text : ℚ) * COST_PER_OUTPUT_TOKEN) t2 r] ∧
    (process_user_input (some rEmpty) t1 t2 prompt s).messages =
      s.messages ++
        [user_turn prompt (count_tokens prompt)
           ((count_tokens prompt : ℚ) * COST_PER_INPUT_TOKEN) t1,
         assistant_turn rEmpty.output_text
           (count_tokens rEmpty.output_text)
           ((count_tokens rEmpty.output_text : ℚ) * COST_PER_OUTPUT_TOKEN) t2
           rEmpty] := by
  have hct : citation_text r.citations = "\n\n**Sources:**" := by
    rw [citation_text_eq, sources_lines_all_empty r.citations hall 1]
    apply String.ext
    simp
  have hie : r.citations.isEmpty = false := by
    cases hc : r.citations with
    | nil => exact absurd hc hne
    | cons a l => rfl
  refine ⟨hct, ?_, ?_⟩
  · rw [messages_success]
    simp [hie, hct]
  · rw [messages_success]
    simp [hemp]

/-- C10 (witness): the header-only sources section at a concrete response
whose single citation has no retrieved references, next to a response with
no citations at all. -/
theorem sources_header_with_empty_references_witness :
    citation_text ([⟨[]⟩] : List Citation) = "\n\n**Sources:**" ∧
    (process_user_input (some ⟨"poem", [⟨[]⟩], [], 1⟩) "t1" "t2" "hi"
        blankState).messages =
      blankState.messages ++
        [user_turn "hi" (count_tokens "hi")
           ((count_tokens "hi" : ℚ) * COST_PER_INPUT_TOKEN) "t1",
         assistant_turn ("poem" ++ "\n\n**Sources:**") (count_tokens "poem")
           ((count_tokens "poem" : ℚ) * COST_PER_OUTPUT_TOKEN) "t2"
           ⟨"poem", [⟨[]⟩], [], 1⟩] ∧
    (process_user_input (some ⟨"poem", [], [], 1⟩) "t1" "t2" "hi"
        blankState).messages =
      blankState.messages ++
        [user_turn "hi" (count_tokens "hi")
           ((count_tokens "hi" : ℚ) * COST_PER_INPUT_TOKEN) "t1",
         assistant_turn "poem" (count_tokens "poem")
           ((count_tokens "poem" : ℚ) * COST_PER_OUTPUT_TOKEN) "t2"
           ⟨"poem", [], [], 1⟩] :=
  sources_header_with_empty_references ⟨"poem", [⟨[]⟩], [], 1⟩ ⟨"poem", [], [], 1⟩
    blankState "t1" "t2" "hi" (by decide) (by decide) rfl

end SportsChatbot
